import Mathlib

/-!
Verification development for `position_controller_s1.py` (GridBNB-USDT).

The controller ("S1") keeps a rolling daily high/low band, a three-signal
trend state, and on every tick decides a NONE/BUY/SELL rebalancing action.
Prices, percentages and timestamps are modelled as rationals; a Python value
that may fail to parse (`float(k[i])` raising) is an `Option ℚ`; an external
call that may raise is an `Option` result at the call site.
-/

set_option linter.all false
set_option maxRecDepth 40000

namespace S1

/-- One daily candle as returned by `fetch_ohlcv`.  Index 2 (`high`) and
index 3 (`low`) are read through `float(...)`, which can raise on malformed
data, hence `Option ℚ`; index 4 (`close`) is only ever passed through to the
external EMA routine, so it is kept raw. -/
structure Kline where
  high : Option ℚ
  low : Option ℚ
  close : ℚ
deriving DecidableEq, Repr

/-- The band state owned by the level tracker: `s1_daily_high`,
`s1_daily_low` (both `None` at construction) and `s1_last_data_update_ts`
(0 at construction). -/
structure BandState where
  s1_daily_high : Option ℚ
  s1_daily_low : Option ℚ
  s1_last_data_update_ts : ℚ
deriving DecidableEq, Repr

/-- The `trend_status` dictionary: three tri-state signals, `none` = the
Python `None` ("unknown"). -/
structure TrendState where
  short_ema_bullish : Option Bool
  macd_bullish : Option Bool
  long_ema_bullish : Option Bool
deriving DecidableEq, Repr

/-- The mutable state of `PositionControllerS1` that the claims are about. -/
structure S1State where
  band : BandState
  trend : TrendState
  allow_replenish_based_on_trend : Bool
deriving DecidableEq, Repr

/-- Evaluate `float(f k)` for each kline of a list, propagating a parse
failure of any element (`max(float(k[2]) for k in ...)` consumes the whole
generator before the assignment happens, so one failing element poisons the
whole aggregate). -/
def parse_floats (f : Kline → Option ℚ) : List Kline → Option (List ℚ)
  | [] => some []
  | k :: rest =>
    match f k, parse_floats f rest with
    | some x, some xs => some (x :: xs)
    | _, _ => none

/-- The window `klines[-(s1_lookback + 1) : -1]` of line 65: a Python slice
`[a:b]` with clamped endpoints is `take b` then `drop a`. -/
def relevant_klines (s1_lookback : Nat) (klines : List Kline) : List Kline :=
  (klines.take (klines.length - 1)).drop (klines.length - (s1_lookback + 1))

/-- Embeds `_fetch_and_calculate_s1_levels` (lines 48-80).  `klines_result = none`
models `fetch_ohlcv` raising (or returning `None`, which makes the guard's
`len(klines)` raise); both paths are caught and return `False`.  The Python
body assigns `s1_daily_high` first and `s1_daily_low` second, so a parse
failure among the lows happens after the high has already been written:
that is embedded faithfully by updating the state between the two
aggregations.  `max()` / `min()` of an empty sequence raise, hence the
empty-list branches. -/
def fetch_and_calculate_s1_levels (s1_lookback : Nat) (now : ℚ)
    (st : BandState) (klines_result : Option (List Kline)) : BandState × Bool :=
  match klines_result with
  | none => (st, false)
  | some klines =>
    if klines.length < s1_lookback + 1 then (st, false)
    else
      let rel := relevant_klines s1_lookback klines
      if rel.length < s1_lookback then (st, false)
      else
        match parse_floats Kline.high rel with
        | none => (st, false)
        | some [] => (st, false)
        | some (h0 :: hrest) =>
          let st1 : BandState := { st with s1_daily_high := some (hrest.foldl max h0) }
          match parse_floats Kline.low rel with
          | none => (st1, false)
          | some [] => (st1, false)
          | some (l0 :: lrest) =>
            ({ st1 with s1_daily_low := some (lrest.foldl min l0),
                        s1_last_data_update_ts := now }, true)

/-- Environment for one run of the trend-analysis block (lines 92-155).
Each field is the outcome of one external interaction this cycle; an outer
`none` models the call raising (caught by the block's `except`). -/
structure TrendEnv where
  ma_data : Option (Option ℚ × Option ℚ)
  macd_data : Option (Option ℚ × Option ℚ)
  cached_price : Option ℚ
  latest_price : Option (Option ℚ)
  daily_ohlcv : Option (Option (List Kline))
  has_calculate_ema : Bool
  ema_200 : Option ℚ
deriving DecidableEq, Repr

/-- Lines 114-116: take `trader.current_price`; if it is falsy (`None` or
`0`), fall back to `_get_latest_price()` (which may itself raise: outer
`none`). -/
def long_price_step (env : TrendEnv) : Option (Option ℚ) :=
  match env.cached_price with
  | some p => if p = 0 then env.latest_price else some (some p)
  | none => env.latest_price

/-- Lines 113-139: the long-term signal.  Result `none` = an exception
escaped this part of the block; `some s` = `trend_status['long_ema_bullish']`
is set to `s`.  The guard of line 124 is
`current_price is not None and ohlcv and len(ohlcv) >= 200` (for a list,
truthiness plus the length bound collapse to the length bound). -/
def long_signal (env : TrendEnv) : Option (Option Bool) :=
  match long_price_step env with
  | none => none
  | some price2 =>
    match env.daily_ohlcv with
    | none => none
    | some ohlcv2 =>
      match price2, ohlcv2 with
      | some current_price, some ohlcv =>
        if 200 ≤ ohlcv.length then
          if env.has_calculate_ema then
            match env.ema_200 with
            | none => none
            | some ema_200_daily =>
              some (if ema_200_daily ≠ 0
                then some (decide (ema_200_daily < current_price)) else none)
          else some none
        else some none
      | _, _ => some none

/-- Lines 142-148: strict three-way resonance on the stored `trend_status`. -/
def allow3 (t : TrendState) : Bool :=
  decide (t.short_ema_bullish = some true ∧ t.macd_bullish = some true ∧
    t.long_ema_bullish = some true)

/-- The trend-analysis block of `update_daily_s1_levels` (lines 92-155).
Returns the resulting `trend_status` and `allow_replenish_based_on_trend`.
An exception anywhere in the block keeps the `trend_status` fields written
so far and sets the allow flag to `False` (the `except` of line 153). -/
def trend_analysis (env : TrendEnv) (t0 : TrendState) : TrendState × Bool :=
  match env.ma_data with
  | none => (t0, false)
  | some (short_ma, long_ma_for_short_trend) =>
    let t1 : TrendState := { t0 with short_ema_bullish :=
      match short_ma, long_ma_for_short_trend with
      | some s, some l => some (decide (l < s))
      | _, _ => none }
    match env.macd_data with
    | none => (t1, false)
    | some (macd_line, signal_line) =>
      let t2 : TrendState := { t1 with macd_bullish :=
        match macd_line, signal_line with
        | some m, some s => some (decide (0 < m - s))
        | _, _ => none }
      match long_signal env with
      | none => (t2, false)
      | some s =>
        let t3 : TrendState := { t2 with long_ema_bullish := s }
        (t3, allow3 t3)

/-- True iff the trend-analysis block runs to completion without an
exception (mirrors the raise points of `trend_analysis`). -/
def trend_no_exception (env : TrendEnv) : Bool :=
  env.ma_data.isSome && env.macd_data.isSome && (long_signal env).isSome

/-- Embeds `update_daily_s1_levels` (lines 82-155).  The band refresh is gated by
`now - s1_last_data_update_ts >= daily_update_interval`; the trend block
runs unconditionally afterwards. -/
def update_daily_s1_levels (s1_lookback : Nat) (daily_update_interval now : ℚ)
    (st : S1State) (klines_result : Option (List Kline)) (env : TrendEnv) :
    S1State :=
  let band2 :=
    if daily_update_interval ≤ now - st.band.s1_last_data_update_ts then
      (fetch_and_calculate_s1_levels s1_lookback now st.band klines_result).1
    else st.band
  let r := trend_analysis env st.trend
  { band := band2, trend := r.1, allow_replenish_based_on_trend := r.2 }

/-- The per-tick decision. -/
inductive Action where
  | NONE
  | SELL
  | BUY
deriving DecidableEq, Repr

/-- Live state read inside the `try` of `check_and_execute` (lines 262-280).
`current_price` is `trader.current_price` (`none` = Python `None`); the
whole record being unavailable (a getter raising) is modelled by passing
`none` for the record itself. -/
structure TickInputs where
  current_price : Option ℚ
  position_pct : ℚ
  position_value : ℚ
  total_assets : ℚ
  bnb_balance : ℚ
deriving DecidableEq, Repr

/-- The decision portion of `check_and_execute` (lines 251-313): returns
`s1_action` and `s1_trade_amount_bnb`.  Wait-for-band, invalid price,
invalid total assets and state-fetch exceptions all fall through to
`(NONE, 0)` (the function returns without acting). -/
def check_and_execute (s1_sell_target_pct s1_buy_target_pct : ℚ)
    (band : BandState) (fetched : Option TickInputs) : Action × ℚ :=
  match band.s1_daily_high, band.s1_daily_low with
  | some hi, some lo =>
    (match fetched with
     | none => (Action.NONE, 0)
     | some t =>
       match t.current_price with
       | none => (Action.NONE, 0)
       | some current_price =>
         if current_price ≤ 0 then (Action.NONE, 0)
         else if t.total_assets ≤ 0 then (Action.NONE, 0)
         else if hi < current_price ∧ s1_sell_target_pct < t.position_pct then
           let target_position_value := t.total_assets * s1_sell_target_pct
           let sell_value_needed := t.position_value - target_position_value
           if 0 < sell_value_needed then
             (Action.SELL, min (sell_value_needed / current_price) t.bnb_balance)
           else (Action.NONE, 0)
         else if current_price < lo ∧ t.position_pct < s1_buy_target_pct then
           let target_position_value := t.total_assets * s1_buy_target_pct
           let buy_value_needed := target_position_value - t.position_value
           if 0 < buy_value_needed then
             (Action.BUY, buy_value_needed / current_price)
           else (Action.NONE, 0)
         else (Action.NONE, 0))
  | _, _ => (Action.NONE, 0)

/-- Line 311: an order is only dispatched for a non-NONE action whose size
exceeds `1e-9`. -/
def s1_should_execute (a : Action) (amt : ℚ) : Bool :=
  decide (a ≠ Action.NONE) && decide ((1 : ℚ) / 1000000000 < amt)

/-- Lines 164-171: `_adjust_amount_precision` when the trader offers it
(`precision_cap = some v` is the value that call returned), otherwise the
fallback `math.floor(amount * 10**3) / 10**3`. -/
def adjust_amount_precision (precision_cap : Option ℚ) (amount_bnb : ℚ) : ℚ :=
  match precision_cap with
  | some v => v
  | none => ((amount_bnb * 1000).floor : ℚ) / 1000

/-- The `limits` sub-dictionary of `symbol_info`: `cost.min` and
`amount.min`, each possibly absent. -/
structure SymbolLimits where
  cost_min : Option ℚ
  amount_min : Option ℚ
deriving DecidableEq, Repr

/-- Lines 187-192: minimum notional, default 10 USDT. -/
def s1_min_notional (symbol_info : Option SymbolLimits) : ℚ :=
  match symbol_info with
  | some l => l.cost_min.getD 10
  | none => 10

/-- Lines 187-192: minimum amount, default 0.0001. -/
def s1_min_amount (symbol_info : Option SymbolLimits) : ℚ :=
  match symbol_info with
  | some l => l.amount_min.getD (1 / 10000)
  | none => 1 / 10000

/-- Outcome of the validation part of `_execute_s1_adjustment`:
`rejected` = the function returned `False` before reaching
`trader.execute_order`; `placed v` = `trader.execute_order` was invoked
with `target_amount_usdt = v`. -/
inductive ExecOutcome where
  | rejected
  | placed (target_amount_usdt : ℚ)
deriving DecidableEq, Repr

/-- Embeds `_execute_s1_adjustment` up to the order call (lines 157-208):
precision adjustment, the `adjusted_amount <= 0` guard, the price guard
(`not current_price or current_price <= 0`), then the minimum-amount and
minimum-notional checks. -/
def execute_s1_adjustment (precision_cap : Option ℚ)
    (current_price : Option ℚ) (symbol_info : Option SymbolLimits)
    (amount_bnb : ℚ) : ExecOutcome :=
  let adjusted_amount := adjust_amount_precision precision_cap amount_bnb
  if adjusted_amount ≤ 0 then ExecOutcome.rejected
  else
    match current_price with
    | none => ExecOutcome.rejected
    | some p =>
      if p ≤ 0 then ExecOutcome.rejected
      else
        let target_amount_usdt := adjusted_amount * p
        if adjusted_amount < s1_min_amount symbol_info then ExecOutcome.rejected
        else if target_amount_usdt < s1_min_notional symbol_info then
          ExecOutcome.rejected
        else ExecOutcome.placed target_amount_usdt

/-- The slice of trader state the controller does not own; in particular the
primary grid strategy's reference price.  The source never assigns any
`self.trader.*` attribute, so every operation threads this state through
unchanged. -/
structure TraderState where
  base_price : ℚ
deriving DecidableEq, Repr

/-- Wraps `check_and_execute` with the host trader state threaded explicitly. -/
def check_and_execute_with_trader (s1_sell_target_pct s1_buy_target_pct : ℚ)
    (trader : TraderState) (band : BandState) (fetched : Option TickInputs) :
    TraderState × (Action × ℚ) :=
  (trader, check_and_execute s1_sell_target_pct s1_buy_target_pct band fetched)

/-- Wraps `update_daily_s1_levels` with the host trader state threaded explicitly. -/
def update_daily_s1_levels_with_trader (s1_lookback : Nat)
    (daily_update_interval now : ℚ) (trader : TraderState) (st : S1State)
    (klines_result : Option (List Kline)) (env : TrendEnv) :
    TraderState × S1State :=
  (trader, update_daily_s1_levels s1_lookback daily_update_interval now st
    klines_result env)

/-- Wraps `_execute_s1_adjustment` with the host trader state threaded explicitly. -/
def execute_s1_adjustment_with_trader (trader : TraderState)
    (precision_cap : Option ℚ) (current_price : Option ℚ)
    (symbol_info : Option SymbolLimits) (amount_bnb : ℚ) :
    TraderState × ExecOutcome :=
  (trader, execute_s1_adjustment precision_cap current_price symbol_info
    amount_bnb)

end S1

namespace S1

/-! ## Helper lemmas -/

theorem parse_floats_length (f : Kline → Option ℚ) (l : List Kline) :
    ∀ xs, parse_floats f l = some xs → xs.length = l.length := by
  induction l with
  | nil =>
    intro xs h
    simp only [parse_floats, Option.some.injEq] at h
    simp [← h]
  | cons k rest ih =>
    intro xs h
    simp only [parse_floats] at h
    cases hfk : f k with
    | none => rw [hfk] at h; exact absurd h (by simp)
    | some x =>
      rw [hfk] at h
      cases hpr : parse_floats f rest with
      | none => rw [hpr] at h; exact absurd h (by simp)
      | some xs2 =>
        rw [hpr] at h
        simp only [Option.some.injEq] at h
        subst h
        simp [ih xs2 hpr]

theorem parse_floats_cons_inv (f : Kline → Option ℚ) (l : List Kline)
    (x : ℚ) (xs : List ℚ) (h : parse_floats f l = some (x :: xs)) :
    ∃ k kr, l = k :: kr ∧ f k = some x ∧ parse_floats f kr = some xs := by
  cases l with
  | nil => simp [parse_floats] at h
  | cons k kr =>
    simp only [parse_floats] at h
    cases hfk : f k with
    | none => rw [hfk] at h; exact absurd h (by simp)
    | some y =>
      rw [hfk] at h
      cases hpr : parse_floats f kr with
      | none => rw [hpr] at h; exact absurd h (by simp)
      | some ys =>
        rw [hpr] at h
        simp only [Option.some.injEq, List.cons.injEq] at h
        exact ⟨k, kr, rfl, by rw [hfk, h.1], by rw [hpr, h.2]⟩

theorem le_foldl_max (l : List ℚ) : ∀ b : ℚ, b ≤ l.foldl max b := by
  induction l with
  | nil => intro b; simp
  | cons c rest ih =>
    intro b
    simpa using le_trans (le_max_left b c) (ih (max b c))

theorem foldl_min_le (l : List ℚ) : ∀ b : ℚ, l.foldl min b ≤ b := by
  induction l with
  | nil => intro b; simp
  | cons c rest ih =>
    intro b
    simpa using le_trans (ih (min b c)) (min_le_left b c)

theorem relevant_klines_length (s1_lookback : Nat) (klines : List Kline)
    (h : s1_lookback + 1 ≤ klines.length) :
    (relevant_klines s1_lookback klines).length = s1_lookback := by
  simp only [relevant_klines, List.length_drop, List.length_take]
  omega

theorem relevant_klines_eq_dropLast (s1_lookback : Nat) (klines : List Kline) :
    relevant_klines s1_lookback klines
      = klines.dropLast.drop (klines.length - 1 - s1_lookback) := by
  rw [List.dropLast_eq_take, relevant_klines]
  congr 1
  omega

theorem fetch_success_eq (s1_lookback : Nat) (now : ℚ) (st : BandState)
    (klines : List Kline) (h0 : ℚ) (hrest : List ℚ) (l0 : ℚ) (lrest : List ℚ)
    (hlen : ¬ klines.length < s1_lookback + 1)
    (hrel : ¬ (relevant_klines s1_lookback klines).length < s1_lookback)
    (hh : parse_floats Kline.high (relevant_klines s1_lookback klines)
            = some (h0 :: hrest))
    (hl : parse_floats Kline.low (relevant_klines s1_lookback klines)
            = some (l0 :: lrest)) :
    fetch_and_calculate_s1_levels s1_lookback now st (some klines)
      = (⟨some (hrest.foldl max h0), some (lrest.foldl min l0), now⟩, true) := by
  simp only [fetch_and_calculate_s1_levels]
  rw [if_neg hlen, if_neg hrel, hh]
  dsimp only
  rw [hl]

/-- Exhaustive description of `_fetch_and_calculate_s1_levels`: it either
fails leaving the state untouched, fails after having already overwritten
`s1_daily_high` (lows failed to parse), or fully succeeds. -/
theorem fetch_cases (s1_lookback : Nat) (now : ℚ) (st : BandState)
    (klines_result : Option (List Kline)) :
    fetch_and_calculate_s1_levels s1_lookback now st klines_result = (st, false) ∨
    (∃ ks h0 hrest, klines_result = some ks ∧
      parse_floats Kline.high (relevant_klines s1_lookback ks) = some (h0 :: hrest) ∧
      parse_floats Kline.low (relevant_klines s1_lookback ks) = none ∧
      fetch_and_calculate_s1_levels s1_lookback now st klines_result
        = (⟨some (hrest.foldl max h0), st.s1_daily_low,
            st.s1_last_data_update_ts⟩, false)) ∨
    (∃ ks h0 hrest l0 lrest, klines_result = some ks ∧
      parse_floats Kline.high (relevant_klines s1_lookback ks) = some (h0 :: hrest) ∧
      parse_floats Kline.low (relevant_klines s1_lookback ks) = some (l0 :: lrest) ∧
      fetch_and_calculate_s1_levels s1_lookback now st klines_result
        = (⟨some (hrest.foldl max h0), some (lrest.foldl min l0), now⟩, true)) := by
  cases klines_result with
  | none => left; rfl
  | some ks =>
    by_cases hlen : ks.length < s1_lookback + 1
    · left
      simp only [fetch_and_calculate_s1_levels]
      rw [if_pos hlen]
    · by_cases hrel : (relevant_klines s1_lookback ks).length < s1_lookback
      · left
        simp only [fetch_and_calculate_s1_levels]
        rw [if_neg hlen, if_pos hrel]
      · cases hh : parse_floats Kline.high (relevant_klines s1_lookback ks) with
        | none =>
          left
          simp only [fetch_and_calculate_s1_levels]
          rw [if_neg hlen, if_neg hrel, hh]
        | some hs =>
          cases hs with
          | nil =>
            left
            simp only [fetch_and_calculate_s1_levels]
            rw [if_neg hlen, if_neg hrel, hh]
          | cons h0 hrest =>
            cases hl : parse_floats Kline.low (relevant_klines s1_lookback ks) with
            | none =>
              right; left
              refine ⟨ks, h0, hrest, rfl, hh, hl, ?_⟩
              simp only [fetch_and_calculate_s1_levels]
              rw [if_neg hlen, if_neg hrel, hh]
              dsimp only
              rw [hl]
            | some ls =>
              cases ls with
              | nil =>
                obtain ⟨k, kr, hks, hfk, hpr⟩ :=
                  parse_floats_cons_inv Kline.high _ h0 hrest hh
                rw [hks] at hl
                simp only [parse_floats] at hl
                cases hfk2 : k.low <;> rw [hfk2] at hl <;>
                  cases hpr2 : parse_floats Kline.low kr <;> rw [hpr2] at hl <;>
                  simp at hl
              | cons l0 lrest =>
                right; right
                refine ⟨ks, h0, hrest, l0, lrest, rfl, hh, hl,
                  fetch_success_eq s1_lookback now st ks h0 hrest l0 lrest
                    hlen hrel hh hl⟩

end S1

namespace S1

/-! ## Claim theorems -/

/-- Claim C1: for every fetched candle list of length at least
`s1_lookback + 1` (with a positive lookback and parseable highs/lows), the
refresh uses exactly the `s1_lookback` candles ending at the second-to-last
one — the window is a suffix of `dropLast klines` of length `s1_lookback` —
setting the high to the maximum parsed high and the low to the minimum
parsed low of that window; and for any list with fewer than
`s1_lookback + 1` candles (the empty list included) it returns `False`
without touching the band. -/
theorem c1_band_window (s1_lookback : Nat) (now : ℚ) (st : BandState)
    (klines : List Kline) (hs ls : List ℚ)
    (hlen : s1_lookback + 1 ≤ klines.length) (hpos : 0 < s1_lookback)
    (hh : parse_floats Kline.high (relevant_klines s1_lookback klines) = some hs)
    (hl : parse_floats Kline.low (relevant_klines s1_lookback klines) = some ls) :
    relevant_klines s1_lookback klines
        = klines.dropLast.drop (klines.length - 1 - s1_lookback) ∧
    (relevant_klines s1_lookback klines).length = s1_lookback ∧
    fetch_and_calculate_s1_levels s1_lookback now st (some klines)
        = (⟨hs.max?, ls.min?, now⟩, true) ∧
    ∀ ks2 : List Kline, ks2.length < s1_lookback + 1 →
      fetch_and_calculate_s1_levels s1_lookback now st (some ks2) = (st, false) := by
  have hrl := relevant_klines_length s1_lookback klines hlen
  have hs_len : hs.length = s1_lookback :=
    (parse_floats_length Kline.high _ hs hh).trans hrl
  have ls_len : ls.length = s1_lookback :=
    (parse_floats_length Kline.low _ ls hl).trans hrl
  obtain ⟨h0, hrest, rfl⟩ : ∃ h0 hrest, hs = h0 :: hrest := by
    cases hs with
    | nil => exfalso; simp only [List.length_nil] at hs_len; omega
    | cons a b => exact ⟨a, b, rfl⟩
  obtain ⟨l0, lrest, rfl⟩ : ∃ l0 lrest, ls = l0 :: lrest := by
    cases ls with
    | nil => exfalso; simp only [List.length_nil] at ls_len; omega
    | cons a b => exact ⟨a, b, rfl⟩
  refine ⟨relevant_klines_eq_dropLast s1_lookback klines, hrl, ?_, ?_⟩
  · rw [fetch_success_eq s1_lookback now st klines h0 hrest l0 lrest
      (by omega) (by omega) hh hl]
    rfl
  · intro ks2 h2
    simp only [fetch_and_calculate_s1_levels]
    rw [if_pos h2]

/-- Witness for C1 at a concrete input: lookback 2, four candles; the band
comes from candles 1 and 2 (0-based), excluding the last; a one-candle list
fails without touching the band. -/
theorem c1_band_window_witness :
    fetch_and_calculate_s1_levels 2 77 ⟨none, none, 0⟩
        (some [⟨some 1, some 1, 0⟩, ⟨some 5, some 2, 0⟩,
               ⟨some 9, some 4, 0⟩, ⟨some 100, some 0, 0⟩])
      = (⟨some 9, some 2, 77⟩, true) ∧
    fetch_and_calculate_s1_levels 2 77 ⟨none, none, 0⟩
        (some [⟨some 1, some 1, 0⟩])
      = (⟨none, none, 0⟩, false) := by
  have h := c1_band_window 2 77 ⟨none, none, 0⟩
    [⟨some 1, some 1, 0⟩, ⟨some 5, some 2, 0⟩,
     ⟨some 9, some 4, 0⟩, ⟨some 100, some 0, 0⟩]
    [5, 9] [2, 4] (by decide) (by decide) (by decide) (by decide)
  exact ⟨h.2.2.1.trans (by decide), h.2.2.2 [⟨some 1, some 1, 0⟩] (by decide)⟩

/-- Counterexample to claim C2: a parse error among the lows, occurring
after the highs were aggregated, leaves `s1_daily_high` overwritten (here
`some 1 ↦ some 20`) while `s1_daily_low` and the timestamp keep their prior
values — the prior `BandState` is partially updated even though the refresh
reports failure. -/
theorem c2_partial_update_cex :
    fetch_and_calculate_s1_levels 1 100 ⟨some 1, some 0, 5⟩
        (some [⟨some 9, some 8, 0⟩, ⟨some 20, none, 0⟩, ⟨some 30, some 29, 0⟩])
      = (⟨some 20, some 0, 5⟩, false) ∧
    (⟨some 20, some 0, 5⟩ : BandState) ≠ ⟨some 1, some 0, 5⟩ := by decide

/-- Claim C2 as amended: on any failed refresh the error is reported as a
boolean result and `s1_daily_low` and `s1_last_data_update_ts` are left
untouched; `s1_daily_high` is also untouched except when the failure is a
parse error among the lows of the selected window, in which case the high
alone has already been overwritten (a partial update is possible). -/
theorem c2_failure_frame (s1_lookback : Nat) (now : ℚ) (st : BandState)
    (klines_result : Option (List Kline))
    (hfail : (fetch_and_calculate_s1_levels s1_lookback now st klines_result).2
      = false) :
    (fetch_and_calculate_s1_levels s1_lookback now st klines_result).1.s1_daily_low
        = st.s1_daily_low ∧
    (fetch_and_calculate_s1_levels s1_lookback now st
        klines_result).1.s1_last_data_update_ts = st.s1_last_data_update_ts ∧
    ((fetch_and_calculate_s1_levels s1_lookback now st
        klines_result).1.s1_daily_high = st.s1_daily_high ∨
      parse_floats Kline.low
        (relevant_klines s1_lookback (klines_result.getD [])) = none) := by
  rcases fetch_cases s1_lookback now st klines_result with h |
    ⟨ks, h0, hrest, hks, hh, hl, h⟩ | ⟨ks, h0, hrest, l0, lrest, hks, hh, hl, h⟩
  · rw [h]
    exact ⟨rfl, rfl, Or.inl rfl⟩
  · rw [h, hks]
    exact ⟨rfl, rfl, Or.inr hl⟩
  · rw [h] at hfail
    exact absurd hfail (by simp)

/-- Witness for C2 (amended): a fetch that raised (`none`) leaves the
concrete prior band fully untouched and reports failure. -/
theorem c2_failure_frame_witness :
    (fetch_and_calculate_s1_levels 52 999 ⟨some 3, some 2, 11⟩ none).1.s1_daily_low
        = some 2 ∧
    (fetch_and_calculate_s1_levels 52 999 ⟨some 3, some 2, 11⟩
        none).1.s1_last_data_update_ts = 11 := by
  have h := c2_failure_frame 52 999 ⟨some 3, some 2, 11⟩ none rfl
  exact ⟨h.1, h.2.1⟩

/-- Counterexample to claim C8: starting from a band satisfying
`high ≥ low` (`100 ≥ 90`), a *failed* refresh whose lows fail to parse
overwrites `s1_daily_high` alone, producing `high = 50 < low = 90`: the
invariant is not preserved by every non-successful operation. -/
theorem c8_invariant_break_cex :
    fetch_and_calculate_s1_levels 1 100 ⟨some 100, some 90, 0⟩
        (some [⟨some 1, some 1, 0⟩, ⟨some 50, none, 0⟩, ⟨some 7, some 6, 0⟩])
      = (⟨some 50, some 90, 0⟩, false) ∧
    ¬ ((⟨some 50, some 90, 0⟩ : BandState).s1_daily_low.getD 0
        ≤ (⟨some 50, some 90, 0⟩ : BandState).s1_daily_high.getD 0) := by decide

/-- Claim C8 as amended: every *successful* band refresh whose window
candles each satisfy `low ≤ high` establishes `s1_daily_high ≥ s1_daily_low`
(both set); the fields start unset and the decision/executor paths never
write them; but a refresh that fails while parsing the lows can set
`s1_daily_high` alone, so the invariant is only guaranteed after a
successful refresh. -/
theorem c8_high_ge_low (s1_lookback : Nat) (now : ℚ) (st : BandState)
    (klines : List Kline)
    (hsucc : (fetch_and_calculate_s1_levels s1_lookback now st (some klines)).2
      = true)
    (hwf : ∀ k ∈ relevant_klines s1_lookback klines,
      ∀ hv lv : ℚ, k.high = some hv → k.low = some lv → lv ≤ hv) :
    (fetch_and_calculate_s1_levels s1_lookback now st
        (some klines)).1.s1_daily_high.isSome = true ∧
    (fetch_and_calculate_s1_levels s1_lookback now st
        (some klines)).1.s1_daily_low.isSome = true ∧
    (fetch_and_calculate_s1_levels s1_lookback now st
        (some klines)).1.s1_daily_low.getD 0
      ≤ (fetch_and_calculate_s1_levels s1_lookback now st
          (some klines)).1.s1_daily_high.getD 0 := by
  rcases fetch_cases s1_lookback now st (some klines) with h |
    ⟨ks, h0, hrest, hks, hh, hl, h⟩ | ⟨ks, h0, hrest, l0, lrest, hks, hh, hl, h⟩
  · rw [h] at hsucc; exact absurd hsucc (by simp)
  · rw [h] at hsucc; exact absurd hsucc (by simp)
  · obtain rfl : ks = klines := (Option.some.inj hks).symm
    obtain ⟨k, kr, hrel_eq, hk_high, _⟩ :=
      parse_floats_cons_inv Kline.high _ h0 hrest hh
    have hk_low : k.low = some l0 := by
      rw [hrel_eq] at hl
      obtain ⟨k2, kr2, hcons, hfk2, _⟩ := parse_floats_cons_inv Kline.low _ l0 lrest hl
      obtain ⟨rfl, rfl⟩ : k2 = k ∧ kr2 = kr := by
        constructor <;> [exact (List.cons.inj hcons.symm).1;
          exact (List.cons.inj hcons.symm).2]
      exact hfk2
    have hmem : k ∈ relevant_klines s1_lookback ks := by
      rw [hrel_eq]; exact List.mem_cons_self k kr
    have hl0h0 : l0 ≤ h0 := hwf k hmem h0 l0 hk_high hk_low
    rw [h]
    refine ⟨rfl, rfl, ?_⟩
    simp only [Option.getD_some]
    exact le_trans (foldl_min_le lrest l0)
      (le_trans hl0h0 (le_foldl_max hrest h0))

/-- Witness for C8 (amended): a concrete successful refresh over a window
whose single candle has `high = 5 ≥ low = 3` yields a set band with
`low ≤ high`. -/
theorem c8_high_ge_low_witness :
    (fetch_and_calculate_s1_levels 1 42 ⟨none, none, 0⟩
        (some [⟨some 5, some 3, 0⟩, ⟨some 9, some 8, 7⟩])).1.s1_daily_high.isSome
      = true ∧
    (fetch_and_calculate_s1_levels 1 42 ⟨none, none, 0⟩
        (some [⟨some 5, some 3, 0⟩, ⟨some 9, some 8, 7⟩])).1.s1_daily_low.isSome
      = true ∧
    (fetch_and_calculate_s1_levels 1 42 ⟨none, none, 0⟩
        (some [⟨some 5, some 3, 0⟩, ⟨some 9, some 8, 7⟩])).1.s1_daily_low.getD 0
      ≤ (fetch_and_calculate_s1_levels 1 42 ⟨none, none, 0⟩
          (some [⟨some 5, some 3, 0⟩, ⟨some 9, some 8, 7⟩])).1.s1_daily_high.getD 0 := by
  refine c8_high_ge_low 1 42 ⟨none, none, 0⟩
    [⟨some 5, some 3, 0⟩, ⟨some 9, some 8, 7⟩] (by decide) ?_
  intro k hk hv lv hhv hlv
  have hkeq : k = ⟨some 5, some 3, 0⟩ := by
    have : relevant_klines 1 [⟨some 5, some 3, 0⟩, ⟨some 9, some 8, 7⟩]
        = [⟨some 5, some 3, 0⟩] := by decide
    rw [this] at hk
    simpa using hk
  subst hkeq
  obtain rfl : hv = 5 := by simpa using hhv.symm
  obtain rfl : lv = 3 := by simpa using hlv.symm
  norm_num

/-- Claim C10: `s1_last_data_update_ts` is advanced to the fetch time
exactly when the refresh fully succeeds; on any failure it keeps its prior
value, so if the refresh interval had elapsed it is still elapsed at any
later time and the next `update_daily_s1_levels` call retries the fetch
immediately. -/
theorem c10_ts_advance (s1_lookback : Nat)
    (daily_update_interval now now2 : ℚ) (st : BandState)
    (klines_result : Option (List Kline)) :
    ((fetch_and_calculate_s1_levels s1_lookback now st klines_result).2 = true →
      (fetch_and_calculate_s1_levels s1_lookback now st
        klines_result).1.s1_last_data_update_ts = now) ∧
    ((fetch_and_calculate_s1_levels s1_lookback now st klines_result).2 = false →
      (fetch_and_calculate_s1_levels s1_lookback now st
          klines_result).1.s1_last_data_update_ts = st.s1_last_data_update_ts ∧
      (daily_update_interval ≤ now - st.s1_last_data_update_ts → now ≤ now2 →
        daily_update_interval ≤ now2 -
          (fetch_and_calculate_s1_levels s1_lookback now st
            klines_result).1.s1_last_data_update_ts)) := by
  rcases fetch_cases s1_lookback now st klines_result with h |
    ⟨ks, h0, hrest, hks, hh, hl, h⟩ | ⟨ks, h0, hrest, l0, lrest, hks, hh, hl, h⟩
  · rw [h]
    exact ⟨fun hc => absurd hc (by simp), fun _ =>
      ⟨rfl, fun hint hmono => by linarith⟩⟩
  · rw [h]
    exact ⟨fun hc => absurd hc (by simp), fun _ =>
      ⟨rfl, fun hint hmono => by dsimp only; linarith⟩⟩
  · rw [h]
    exact ⟨fun _ => rfl, fun hc => absurd hc (by simp)⟩

/-- Witness for C10: on a concrete successful refresh the timestamp becomes
the fetch time; on a concrete failed one (fetch raised) it stays put and
the interval remains elapsed at a later instant. -/
theorem c10_ts_advance_witness :
    (fetch_and_calculate_s1_levels 1 500 ⟨none, none, 0⟩
        (some [⟨some 5, some 3, 0⟩, ⟨some 9, some 8, 7⟩])).1.s1_last_data_update_ts
      = 500 ∧
    (fetch_and_calculate_s1_levels 1 500 ⟨none, none, 20⟩
        none).1.s1_last_data_update_ts = 20 ∧
    (100 : ℚ) ≤ 600 -
      (fetch_and_calculate_s1_levels 1 500 ⟨none, none, 20⟩
        none).1.s1_last_data_update_ts := by
  refine ⟨(c10_ts_advance 1 100 500 600 ⟨none, none, 0⟩
      (some [⟨some 5, some 3, 0⟩, ⟨some 9, some 8, 7⟩])).1 (by decide), ?_, ?_⟩
  · exact ((c10_ts_advance 1 100 500 600 ⟨none, none, 20⟩ none).2 rfl).1
  · exact ((c10_ts_advance 1 100 500 600 ⟨none, none, 20⟩ none).2 rfl).2
      (by norm_num) (by norm_num)

end S1

namespace S1

/-- Counterexample to claim C3: a call to `update_daily_s1_levels` made
with the refresh interval *not* elapsed (`now - ts = 0 < 86040`) still
reruns the trend block — here it flips `allow_replenish_based_on_trend`
from `true` to `false` — so TrendState and the allow flag are not left
unchanged between band refreshes. -/
theorem c3_trend_recompute_cex :
    ((0 : ℚ) - 0 < 86040) ∧
    (⟨⟨none, none, 0⟩, ⟨none, none, none⟩,
      true⟩ : S1State).allow_replenish_based_on_trend = true ∧
    (update_daily_s1_levels 52 86040 0
        ⟨⟨none, none, 0⟩, ⟨none, none, none⟩, true⟩ none
        ⟨none, none, none, none, none, false, none⟩).allow_replenish_based_on_trend
      = false :=
  ⟨by norm_num, rfl, rfl⟩

/-- Claim C3 as amended: only the *band* is bound to the refresh cadence —
a call made before the interval has elapsed leaves `BandState` unchanged —
while the three trend signals and `allow_replenish_based_on_trend` are
recomputed on every invocation of `update_daily_s1_levels`, whatever the
cadence. -/
theorem c3_cadence (s1_lookback : Nat) (daily_update_interval now : ℚ)
    (st : S1State) (klines_result : Option (List Kline)) (env : TrendEnv)
    (h : now - st.band.s1_last_data_update_ts < daily_update_interval) :
    update_daily_s1_levels s1_lookback daily_update_interval now st
        klines_result env
      = ⟨st.band, (trend_analysis env st.trend).1,
         (trend_analysis env st.trend).2⟩ := by
  simp only [update_daily_s1_levels]
  rw [if_neg (not_le.mpr h)]

/-- Witness for C3 (amended) at a concrete early call: the band survives,
the trend part is the freshly recomputed one. -/
theorem c3_cadence_witness :
    update_daily_s1_levels 52 86040 11
        ⟨⟨some 8, some 6, 10⟩, ⟨some true, none, none⟩, false⟩ none
        ⟨some (some 1, some 2), none, none, none, none, false, none⟩
      = ⟨⟨some 8, some 6, 10⟩,
         (trend_analysis
           ⟨some (some 1, some 2), none, none, none, none, false, none⟩
           ⟨some true, none, none⟩).1,
         (trend_analysis
           ⟨some (some 1, some 2), none, none, none, none, false, none⟩
           ⟨some true, none, none⟩).2⟩ :=
  c3_cadence 52 86040 11 ⟨⟨some 8, some 6, 10⟩, ⟨some true, none, none⟩, false⟩
    none ⟨some (some 1, some 2), none, none, none, none, false, none⟩
    (by norm_num)

/-- Counterexample to claim C4: when the MACD fetch raises on a cycle whose
previous refresh had stored three `true` signals, the stored signals remain
all known-and-true (the short one even freshly recomputed as `true`) while
`allow_replenish_based_on_trend` is reset to `false`: the "if and only if"
fails in the exception case. -/
theorem c4_stale_resonance_cex :
    (trend_analysis ⟨some (some 2, some 1), none, none, none, none, false, none⟩
        ⟨some true, some true, some true⟩).1
      = ⟨some true, some true, some true⟩ ∧
    (trend_analysis ⟨some (some 2, some 1), none, none, none, none, false, none⟩
        ⟨some true, some true, some true⟩).2 = false := by decide

/-- Claim C4 as amended: `allow_replenish_based_on_trend = true` always
implies all three stored signals are known and true; when the trend block
completes without an exception the equivalence holds exactly (any false or
unknown signal forces `false`); and any exception during the computation
resets the flag to `false` without propagating — but on such cycles stale
stored signals may be all-true while the flag is `false`, so the plain
"if and only if" only holds for exception-free refreshes. -/
theorem c4_allow_iff (env : TrendEnv) (t0 : TrendState) :
    ((trend_analysis env t0).2 = true →
      (trend_analysis env t0).1.short_ema_bullish = some true ∧
      (trend_analysis env t0).1.macd_bullish = some true ∧
      (trend_analysis env t0).1.long_ema_bullish = some true) ∧
    (trend_no_exception env = true →
      ((trend_analysis env t0).2 = true ↔
        ((trend_analysis env t0).1.short_ema_bullish = some true ∧
         (trend_analysis env t0).1.macd_bullish = some true ∧
         (trend_analysis env t0).1.long_ema_bullish = some true))) ∧
    (trend_no_exception env = false → (trend_analysis env t0).2 = false) := by
  obtain ⟨ma, macd, cp, lp, doh, hce, ema⟩ := env
  cases ma with
  | none => simp [trend_analysis, trend_no_exception]
  | some pma =>
    obtain ⟨sma, lma⟩ := pma
    cases macd with
    | none => simp [trend_analysis, trend_no_exception]
    | some pmacd =>
      obtain ⟨ml, sl⟩ := pmacd
      cases hls : long_signal ⟨some (sma, lma), some (ml, sl), cp, lp, doh,
          hce, ema⟩ with
      | none => simp [trend_analysis, trend_no_exception, hls]
      | some s => simp [trend_analysis, trend_no_exception, hls, allow3]

/-- Witness for C4 (amended): a concrete exception-free, all-bullish cycle
in which the equivalence yields `allow = true`. -/
theorem c4_allow_iff_witness :
    (trend_analysis
        ⟨some (some 3, some 1), some (some 2, some 1), some 5, none,
         some (some (List.replicate 200 ⟨none, none, 1⟩)), true, some 4⟩
        ⟨none, none, none⟩).2 = true :=
  ((c4_allow_iff
      ⟨some (some 3, some 1), some (some 2, some 1), some 5, none,
       some (some (List.replicate 200 ⟨none, none, 1⟩)), true, some 4⟩
      ⟨none, none, none⟩).2.1
    (by norm_num [trend_no_exception, long_signal, long_price_step,
      List.length_replicate])).mpr
    (by norm_num [trend_analysis, long_signal, long_price_step,
      List.length_replicate, decide_eq_true_eq])

/-- Counterexample to claim C5: with an inverted band both the SELL
condition (`price > high` and `ratio > sellTarget`) and the BUY condition
(`price < low` and `ratio < buyTarget`) are numerically satisfied, yet with
an inconsistent position value (`40 < 100 × 0.5`) the sell value needed is
non-positive and the decided action is `NONE`, not `SELL`. -/
theorem c5_priority_cex :
    ((10 : ℚ) < 15 ∧ (1 : ℚ) / 2 < 3 / 5) ∧
    ((15 : ℚ) < 20 ∧ (3 : ℚ) / 5 < 7 / 10) ∧
    check_and_execute (1 / 2) (7 / 10) ⟨some 10, some 20, 0⟩
        (some ⟨some 15, 3 / 5, 40, 100, 1⟩) = (Action.NONE, 0) := by
  refine ⟨⟨by norm_num, by norm_num⟩, ⟨by norm_num, by norm_num⟩, ?_⟩
  norm_num [check_and_execute]

/-- Claim C5 as amended: the high-breach branch is evaluated strictly
before the low-breach branch and at most one action is emitted — whenever
both breach conditions are numerically satisfied the decision is never
`BUY`; it is `SELL` when the required sell value is positive and `NONE`
otherwise. -/
theorem c5_sell_priority (s1_sell_target_pct s1_buy_target_pct hi lo
    band_ts p : ℚ) (t : TickInputs)
    (hp : t.current_price = some p) (hp0 : 0 < p) (hta : 0 < t.total_assets)
    (hsell : hi < p ∧ s1_sell_target_pct < t.position_pct)
    (hbuy : p < lo ∧ t.position_pct < s1_buy_target_pct) :
    (check_and_execute s1_sell_target_pct s1_buy_target_pct
        ⟨some hi, some lo, band_ts⟩ (some t)).1 ≠ Action.BUY ∧
    (0 < t.position_value - t.total_assets * s1_sell_target_pct →
      (check_and_execute s1_sell_target_pct s1_buy_target_pct
        ⟨some hi, some lo, band_ts⟩ (some t)).1 = Action.SELL) ∧
    (t.position_value - t.total_assets * s1_sell_target_pct ≤ 0 →
      check_and_execute s1_sell_target_pct s1_buy_target_pct
        ⟨some hi, some lo, band_ts⟩ (some t) = (Action.NONE, 0)) := by
  have hmain : check_and_execute s1_sell_target_pct s1_buy_target_pct
      ⟨some hi, some lo, band_ts⟩ (some t)
      = if 0 < t.position_value - t.total_assets * s1_sell_target_pct
        then (Action.SELL,
          min ((t.position_value - t.total_assets * s1_sell_target_pct) / p)
            t.bnb_balance)
        else (Action.NONE, 0) := by
    simp only [check_and_execute, hp]
    rw [if_neg (not_le.mpr hp0), if_neg (not_le.mpr hta), if_pos hsell]
  refine ⟨?_, ?_, ?_⟩
  · by_cases hneed : 0 < t.position_value - t.total_assets * s1_sell_target_pct
    · rw [hmain, if_pos hneed]; simp
    · rw [hmain, if_neg hneed]; simp
  · intro hneed
    rw [hmain, if_pos hneed]
  · intro hneed
    rw [hmain, if_neg (not_lt.mpr hneed)]

/-- Witness for C5 (amended): both conditions hold on an inverted band and
the sell value needed is positive, so the decision is `SELL`. -/
theorem c5_sell_priority_witness :
    (check_and_execute (1 / 2) (7 / 10) ⟨some 10, some 20, 0⟩
        (some ⟨some 15, 3 / 5, 60, 100, 1⟩)).1 = Action.SELL :=
  (c5_sell_priority (1 / 2) (7 / 10) 10 20 0 15 ⟨some 15, 3 / 5, 60, 100, 1⟩
      rfl (by norm_num) (by norm_num) ⟨by norm_num, by norm_num⟩
      ⟨by norm_num, by norm_num⟩).2.1 (by norm_num)

/-- Claim C6: with a fully populated band, positive price and positive
total assets, the SELL branch sizes the trade as
`min((positionValue − totalAssets × sellTargetPct) / price, balance)`, the
BUY branch (reached only when no SELL triggered) as
`(totalAssets × buyTargetPct − positionValue) / price` uncapped, and in
either branch a non-positive target value yields `(NONE, 0)`. -/
theorem c6_trade_size (s1_sell_target_pct s1_buy_target_pct hi lo
    band_ts p : ℚ) (t : TickInputs)
    (hp : t.current_price = some p) (hp0 : 0 < p) (hta : 0 < t.total_assets) :
    ((hi < p ∧ s1_sell_target_pct < t.position_pct) →
      (0 < t.position_value - t.total_assets * s1_sell_target_pct →
        check_and_execute s1_sell_target_pct s1_buy_target_pct
            ⟨some hi, some lo, band_ts⟩ (some t)
          = (Action.SELL,
             min ((t.position_value - t.total_assets * s1_sell_target_pct) / p)
               t.bnb_balance)) ∧
      (t.position_value - t.total_assets * s1_sell_target_pct ≤ 0 →
        check_and_execute s1_sell_target_pct s1_buy_target_pct
            ⟨some hi, some lo, band_ts⟩ (some t) = (Action.NONE, 0))) ∧
    (¬ (hi < p ∧ s1_sell_target_pct < t.position_pct) →
      (p < lo ∧ t.position_pct < s1_buy_target_pct) →
      (0 < t.total_assets * s1_buy_target_pct - t.position_value →
        check_and_execute s1_sell_target_pct s1_buy_target_pct
            ⟨some hi, some lo, band_ts⟩ (some t)
          = (Action.BUY,
             (t.total_assets * s1_buy_target_pct - t.position_value) / p)) ∧
      (t.total_assets * s1_buy_target_pct - t.position_value ≤ 0 →
        check_and_execute s1_sell_target_pct s1_buy_target_pct
            ⟨some hi, some lo, band_ts⟩ (some t) = (Action.NONE, 0))) := by
  constructor
  · intro hsell
    have hmain : check_and_execute s1_sell_target_pct s1_buy_target_pct
        ⟨some hi, some lo, band_ts⟩ (some t)
        = if 0 < t.position_value - t.total_assets * s1_sell_target_pct
          then (Action.SELL,
            min ((t.position_value - t.total_assets * s1_sell_target_pct) / p)
              t.bnb_balance)
          else (Action.NONE, 0) := by
      simp only [check_and_execute, hp]
      rw [if_neg (not_le.mpr hp0), if_neg (not_le.mpr hta), if_pos hsell]
    exact ⟨fun hneed => by rw [hmain, if_pos hneed],
      fun hneed => by rw [hmain, if_neg (not_lt.mpr hneed)]⟩
  · intro hnosell hbuy
    have hmain : check_and_execute s1_sell_target_pct s1_buy_target_pct
        ⟨some hi, some lo, band_ts⟩ (some t)
        = if 0 < t.total_assets * s1_buy_target_pct - t.position_value
          then (Action.BUY,
            (t.total_assets * s1_buy_target_pct - t.position_value) / p)
          else (Action.NONE, 0) := by
      simp only [check_and_execute, hp]
      rw [if_neg (not_le.mpr hp0), if_neg (not_le.mpr hta), if_neg hnosell,
        if_pos hbuy]
    exact ⟨fun hneed => by rw [hmain, if_pos hneed],
      fun hneed => by rw [hmain, if_neg (not_lt.mpr hneed)]⟩

/-- Witness for C6 at the spec's BUY scenario: band (650, 500), price 480,
ratio 0.60 < 0.70, assets 10000, position value 6000 → BUY of
(10000 × 0.7 − 6000) / 480. -/
theorem c6_trade_size_witness :
    check_and_execute (1 / 2) (7 / 10) ⟨some 650, some 500, 0⟩
        (some ⟨some 480, 3 / 5, 6000, 10000, 5⟩)
      = (Action.BUY, ((10000 : ℚ) * (7 / 10) - 6000) / 480) :=
  ((c6_trade_size (1 / 2) (7 / 10) 650 500 0 480
      ⟨some 480, 3 / 5, 6000, 10000, 5⟩ rfl (by norm_num) (by norm_num)).2
    (by norm_num) ⟨by norm_num, by norm_num⟩).1 (by norm_num)

/-- Claim C7: the executor rejects — returning failure before any call to
order placement — whenever the precision-rounded amount is ≤ 0, below the
minimum amount, or its notional `roundedSize × price` is below the minimum
notional; and with symbol metadata absent the limits default to amount
0.0001 and notional 10. -/
theorem c7_executor_limits (precision_cap : Option ℚ) (p : ℚ)
    (symbol_info : Option SymbolLimits) (amount_bnb : ℚ) (hp : 0 < p) :
    ((adjust_amount_precision precision_cap amount_bnb ≤ 0 ∨
      adjust_amount_precision precision_cap amount_bnb
        < s1_min_amount symbol_info ∨
      adjust_amount_precision precision_cap amount_bnb * p
        < s1_min_notional symbol_info) →
      execute_s1_adjustment precision_cap (some p) symbol_info amount_bnb
        = ExecOutcome.rejected) ∧
    (symbol_info = none → s1_min_amount symbol_info = 1 / 10000 ∧
      s1_min_notional symbol_info = 10) := by
  constructor
  · intro h
    simp only [execute_s1_adjustment]
    by_cases h1 : adjust_amount_precision precision_cap amount_bnb ≤ 0
    · rw [if_pos h1]
    · rw [if_neg h1]
      rw [if_neg (not_le.mpr hp)]
      by_cases h2 : adjust_amount_precision precision_cap amount_bnb
          < s1_min_amount symbol_info
      · rw [if_pos h2]
      · have h3 : adjust_amount_precision precision_cap amount_bnb * p
            < s1_min_notional symbol_info := by
          rcases h with h | h | h
          · exact absurd h h1
          · exact absurd h h2
          · exact h
        rw [if_neg h2, if_pos h3]
  · rintro rfl
    exact ⟨rfl, rfl⟩

/-- Witness for C7 at the spec's scenario: rounded size 2 at price 4 has
notional 8 < 10, so the order is rejected before placement; the defaults
for absent metadata are 0.0001 and 10. -/
theorem c7_executor_limits_witness :
    execute_s1_adjustment (some 2) (some 4) none 2 = ExecOutcome.rejected ∧
    s1_min_amount none = 1 / 10000 ∧ s1_min_notional none = 10 := by
  have h := c7_executor_limits (some 2) 4 none 2 (by norm_num)
  refine ⟨h.1 (Or.inr (Or.inr ?_)), h.2 rfl⟩
  norm_num [adjust_amount_precision, s1_min_notional]

/-- Claim C9: none of the controller's operations writes to the host
trader's state — in particular the primary grid strategy's reference
(`base_price`) is unchanged by `check_and_execute`,
`update_daily_s1_levels` and `_execute_s1_adjustment`; the source contains
no assignment to any `self.trader.*` attribute, so the embedding threads
the trader state through each operation unchanged. -/
theorem c9_trader_frame (s1_sell_target_pct s1_buy_target_pct : ℚ)
    (trader : TraderState) (band : BandState) (fetched : Option TickInputs)
    (s1_lookback : Nat) (daily_update_interval now : ℚ) (st : S1State)
    (klines_result : Option (List Kline)) (env : TrendEnv)
    (precision_cap cp : Option ℚ) (symbol_info : Option SymbolLimits)
    (amount_bnb : ℚ) :
    (check_and_execute_with_trader s1_sell_target_pct s1_buy_target_pct trader
        band fetched).1.base_price = trader.base_price ∧
    (update_daily_s1_levels_with_trader s1_lookback daily_update_interval now
        trader st klines_result env).1.base_price = trader.base_price ∧
    (execute_s1_adjustment_with_trader trader precision_cap cp symbol_info
        amount_bnb).1.base_price = trader.base_price :=
  ⟨rfl, rfl, rfl⟩

end S1
